import Mathlib

/-!
Verification of the dpulse orchestration layer (`src/dpulse.py`) against its
natural-language specification.  The Python source is shallowly embedded:
pure control flow becomes Lean functions, filesystem and database state
becomes explicit state passing, external calls (the domain precheck, the
scan pipeline, the report-file glob) become oracle fields of an
environment record, and Python exceptions become `Except`.
-/

namespace DPulse

/-! ## String helpers

The Python string operations are embedded as structurally recursive
functions over the character list of a `String`, so that every definition
evaluates inside the kernel (`decide`/`rfl`) on concrete inputs.  The
strings appearing in the program are plain ASCII, for which these agree
with the Python `split`, `lower`, `strip`, `startswith`, `in` and
single-character `replace`. -/

/-- Split a character list at every occurrence of `sep` (Python
`str.split(sep)` for a one-character separator). -/
def splitChar (sep : Char) : List Char → List (List Char)
  | [] => [[]]
  | c :: cs =>
    let r := splitChar sep cs
    if c = sep then [] :: r
    else
      match r with
      | [] => [[c]]
      | x :: xs => (c :: x) :: xs

/-- Python `s.split(sep)` for a one-character separator. -/
def pySplit (s : String) (sep : Char) : List String :=
  (splitChar sep s.data).map String.mk

/-- Python `s.lower()` (ASCII). -/
def pyLower (s : String) : String :=
  String.mk (s.data.map Char.toLower)

/-- An ASCII whitespace character, as stripped by Python `str.strip()`. -/
def isSpaceChar (c : Char) : Bool :=
  c = ' ' || c = Char.ofNat 9 || c = Char.ofNat 10 || c = Char.ofNat 13

/-- Python `s.strip()`. -/
def pyStrip (s : String) : String :=
  String.mk (((s.data.dropWhile isSpaceChar).reverse.dropWhile isSpaceChar).reverse)

/-- Python `c in s` for a single character `c`. -/
def pyContains (s : String) (c : Char) : Bool :=
  s.data.contains c

/-- Python `s.startswith(c)` for a single character `c`. -/
def pyStartsWith (s : String) (c : Char) : Bool :=
  match s.data with
  | [] => false
  | d :: _ => d = c

/-- Python `s.replace(a, b)` for one-character `a` and `b`. -/
def pyReplaceChar (s : String) (a b : Char) : String :=
  String.mk (s.data.map fun c => if c = a then b else c)

/-- An API credential row of the `api_keys` table: `{id, api_key}`. -/
structure ApiCredential where
  id : String
  api_key : String
deriving DecidableEq

/-- A dork template row: an identifier and a query pattern. -/
structure DorkTemplate where
  dork_id : Nat
  dork : String
deriving DecidableEq

/-- The dork template store: a map from database file name and table name to
the rows of that table. -/
structure DorkStore where
  tables : String → String → List DorkTemplate

/-- Modelled from the spec: `db_creator.get_columns_amount` is not under
`src/` (only its caller in `dpulse.py` is).  Per the spec, `RowCount
(collection)` "must reflect the exact number of templates in that collection
at query time", so it is the row count of the backing table. -/
def get_columns_amount (st : DorkStore) (dbFile table : String) : Nat :=
  (st.tables dbFile table).length

/-- Modelled from the spec: `db_processing.check_api_keys` is not under
`src/` (only its caller in `dpulse.py` is).  Per the spec, `Validate` marks
an identifier valid exactly when it is a known id whose key is non-empty,
and the scan may proceed exactly when at least one requested identifier is
valid. -/
def check_api_keys (creds : List ApiCredential) (ids : List String) : Bool :=
  ids.any fun i => creds.any fun c => c.id = i && c.api_key ≠ ""

/-- Origin tag of a result row (page-search hit, dork hit, API hit). -/
inductive RowOrigin where
  | pagesearch
  | dork
  | api
deriving DecidableEq

/-- A normalized scan result row: its originating source and its content. -/
structure Row where
  origin : RowOrigin
  content : String
deriving DecidableEq

/-- Oracle for the raw hits each external source would produce. -/
structure GatherEnv where
  pagesearchHits : List String
  dorkHits : List String
  apiHits : List String

/-- Modelled from the spec: `data_assembler.DataProcessing.data_gathering`
is not under `src/` (only its caller `process_report` is).  Per the spec,
each source is activated by its own flag and rows are tagged with their
origin; dork-origin rows come only from executing the selected dork
collection, which does not happen when the dorking mode is `"n"`, and
API-origin rows come only from activated API sources (the sentinel
`["Empty"]` means none). -/
def data_gathering (g : GatherEnv) (pagesearch_flag dorking_flag : String)
    (used_api_flag : List String) : List Row :=
  (if pagesearch_flag = "y" ∨ pagesearch_flag = "si" then
      g.pagesearchHits.map (Row.mk RowOrigin.pagesearch)
    else [])
  ++ (if dorking_flag = "n" then []
      else g.dorkHits.map (Row.mk RowOrigin.dork))
  ++ (if used_api_flag = ["Empty"] then []
      else g.apiHits.map (Row.mk RowOrigin.api))

/-- The argument tuple a scan hands to `process_report` (and through it to
`data_gathering`): everything `dpulse.py` computes before invoking the
pipeline. -/
structure ScanInvocation where
  report_filetype : String
  short_domain : String
  url : String
  case_comment : String
  keywords_list : Option (List String)
  keywords_flag : Nat
  dorking_flag : String
  used_api_flag : List String
  pagesearch_flag : String
  snapshotting_flag : String
  username : Option String
  from_date : String
  end_date : String
deriving DecidableEq

/-- Embedding of the call `process_report` makes into `data_gathering`: the dorking
and pagesearch flags are lowercased there (`dorking_flag.lower()`,
`pagesearch_flag.lower()`). -/
def process_report_rows (g : GatherEnv) (inv : ScanInvocation) : List Row :=
  data_gathering g (pyLower inv.pagesearch_flag) (pyLower inv.dorking_flag)
    inv.used_api_flag

/-! ## Headless scan (`run_headless_scan`, `src/dpulse.py` lines 145-248) -/

/-- A Python exception value: message and formatted traceback. -/
structure PyExc where
  msg : String
  tb : String
deriving DecidableEq

/-- A Python value appearing in the result dict of `run_headless_scan`. -/
inductive PyVal where
  | bool (b : Bool)
  | str (s : String)
  | strList (l : List String)
deriving DecidableEq

/-- A Python dict with string keys, as a key-value list. -/
abbrev PyDict := List (String × PyVal)

/-- Dictionary lookup: the value stored under key `k`, if any. -/
def dictGet (d : PyDict) (k : String) : Option PyVal :=
  (d.find? fun p => p.1 = k).map (fun p => p.2)

/-- Arguments of `run_headless_scan`, with the Python defaults made
explicit by the callers. -/
structure HeadlessArgs where
  short_domain : String
  report_filetype : String
  pagesearch_flag : String
  keywords_list : Option (List String)
  dorking_flag : String
  used_api_flag : Option (List String)
  snapshotting_flag : String
  username : Option String
  from_date : Option String
  end_date : Option String

/-- Oracle environment for `run_headless_scan`: whether the `misc`
precheck helper imports, what `domain_precheck` returns (or raises), what
the scan pipeline does (success or raised exception), and which files the
reports-directory glob finds for a domain. -/
structure HeadlessEnv where
  precheckAvailable : Bool
  precheckResult : String → Except PyExc Bool
  scanResult : ScanInvocation → Except PyExc Unit
  reportFiles : String → List String

/-- The precheck gate of `run_headless_scan`: the scan aborts exactly when
the helper imported and `domain_precheck` returned falsy; a raised
precheck is logged and the scan continues ("continuing anyway"). -/
def headlessPrecheckAborts (a : HeadlessArgs) (env : HeadlessEnv) : Bool :=
  env.precheckAvailable &&
    (match env.precheckResult a.short_domain with
      | Except.ok ok => !ok
      | Except.error _ => false)

/-- The flag normalization of `run_headless_scan` (lines 195-231) and the
argument tuple it passes to `process_report`: `keywords_flag` is 1 exactly
for a non-empty keyword list, a falsy `used_api_flag` becomes `["Empty"]`,
`None` dates become `"N"`, the url is `http://<short_domain>/` and the
case comment is empty. -/
def headlessInvocation (a : HeadlessArgs) : ScanInvocation :=
  { report_filetype := a.report_filetype
    short_domain := a.short_domain
    url := "http://" ++ a.short_domain ++ "/"
    case_comment := ""
    keywords_list := a.keywords_list
    keywords_flag :=
      match a.keywords_list with
      | some (_ :: _) => 1
      | _ => 0
    dorking_flag := a.dorking_flag
    used_api_flag :=
      match a.used_api_flag with
      | some (x :: xs) => x :: xs
      | _ => ["Empty"]
    pagesearch_flag := a.pagesearch_flag
    snapshotting_flag := a.snapshotting_flag
    username := a.username
    from_date := a.from_date.getD "N"
    end_date := a.end_date.getD "N" }

/-- Shallow embedding of `run_headless_scan` (`src/dpulse.py` 145-248).
Returns the result dict together with the `process_report` invocation it
performed, if any (`none` means the pipeline was never entered).  The
Python body is one big `try/except Exception`; the only modelled raise
site is the scan pipeline itself, and the handler builds the four-key
error dict. -/
def run_headless_scan (a : HeadlessArgs) (env : HeadlessEnv) :
    PyDict × Option ScanInvocation :=
  if a.short_domain = "" ∨ pyContains a.short_domain '.' = false then
    ([("success", PyVal.bool false),
      ("message", PyVal.str "Invalid domain provided"),
      ("report_files", PyVal.strList [])], none)
  else if headlessPrecheckAborts a env then
    ([("success", PyVal.bool false),
      ("message", PyVal.str "Domain precheck failed (not reachable)"),
      ("report_files", PyVal.strList [])], none)
  else
    match env.scanResult (headlessInvocation a) with
    | Except.error e =>
        ([("success", PyVal.bool false),
          ("message", PyVal.str e.msg),
          ("report_files", PyVal.strList []),
          ("trace", PyVal.str e.tb)], some (headlessInvocation a))
    | Except.ok _ =>
        ([("success", PyVal.bool true),
          ("message", PyVal.str "Scan finished"),
          ("report_files", PyVal.strList (env.reportFiles a.short_domain))],
          some (headlessInvocation a))

/-! ## Interactive CLI scan path (`run`, `src/dpulse.py` lines 253-382) -/

/-- A character allowed inside a domain label by the CLI regex
(`[a-zA-Z0-9\-]`). -/
def isDomainLabelChar (c : Char) : Bool :=
  c.isAlpha || c.isDigit || c = '-'

/-- Embedding of the CLI domain regex
`^(?!\-)(?:[a-zA-Z0-9\-]{1,63}\.)+[a-zA-Z]{2,}$`: the string does not start
with a dash, splits on dots into at least one 1-63 character label followed
by an alphabetic top-level part of length at least two. -/
def matchesDomainPattern (s : String) : Bool :=
  let parts := splitChar '.' s.data
  (!(pyStartsWith s '-'))
    && decide (2 ≤ parts.length)
    && parts.dropLast.all (fun l =>
        decide (1 ≤ l.length) && decide (l.length ≤ 63) && l.all isDomainLabelChar)
    && (match parts.getLast? with
        | some tld => decide (2 ≤ tld.length) && tld.all Char.isAlpha
        | none => false)

/-- The interactive answers consumed by one pass through the CLI scan
branch (menu choice "1"), plus the externally observed precheck result. -/
structure CliScanInputs where
  short_domain : String
  precheckOk : Bool
  case_comment : String
  report_filetype : String
  pagesearch_flag : String
  keywords_input : String
  dorking_flag : String
  api_flag : String
  to_use_api_flag : String
  username_input : String
  snapshotting_flag : String
  from_date_input : String
  end_date_input : String
  custom_db_name : String
deriving DecidableEq

/-- The four human-readable summary marks the CLI builds for the report
header. -/
structure UiMarks where
  pagesearch : String
  dorking : String
  api : String
  snapshotting : String
deriving DecidableEq

/-- Outcome of one pass through the CLI scan branch: each abort point of
the source (a `break` or a fall-through with an error message), or a
completed hand-off to `process_report`. -/
inductive CliOutcome where
  | back
  | emptyDomain
  | badPattern
  | unreachable
  | badFiletype
  | emptyKeywords
  | noUsableCredential
  | badApiMode
  | badDorking
  | badSnapshotting
  | badPagesearch
  | scanned (inv : ScanInvocation) (marks : UiMarks)
deriving DecidableEq

/-- A single-quote character, for embedding Python string reprs. -/
def squote : String := String.singleton (Char.ofNat 39)

/-- Python `repr` of a list of plain strings, as interpolated by the
f-string building the pagesearch mark. -/
def pyStrList (xs : List String) : String :=
  "[" ++ String.intercalate ", " (xs.map fun s => squote ++ s ++ squote) ++ "]"

/-- Comma-split-and-strip of the API id answer:
`[item.strip() for item in to_use_api_flag.split(',')]`. -/
def parseApiIds (s : String) : List String :=
  (pySplit s ',').map pyStrip

/-- The keyword step of the CLI (lines 288-302): when pagesearch is `y`,
a non-`n` non-empty answer yields the split keyword list with flag 1, a
non-`n` empty answer aborts (`break`), and `n` (like pagesearch `n`)
yields no keywords.  For an invalid pagesearch flag the source leaves the
variables unassigned and never reads them; the model returns the unused
default. -/
def cliKeywords (inp : CliScanInputs) : Except Unit (Option (List String) × Nat) :=
  if pyLower inp.pagesearch_flag = "y" then
    if pyLower inp.keywords_input ≠ "n" then
      if 0 < (pyLower inp.keywords_input).length then
        Except.ok (some ((pySplit inp.keywords_input ',').map pyStrip), 1)
      else Except.error ()
    else Except.ok (none, 0)
  else Except.ok (none, 0)

/-- The API step of the CLI (lines 305-329): `y` parses the requested ids,
asks for a username when id "3" is among them, and aborts with the
no-usable-credential message when `db.check_api_keys` fails; `n` uses the
sentinel `["Empty"]`; anything else aborts as an invalid API mode. -/
def cliApiStep (inp : CliScanInputs) (creds : List ApiCredential) :
    Except CliOutcome (List String × String × Option String) :=
  if pyLower inp.api_flag = "y" then
    let used := parseApiIds inp.to_use_api_flag
    let username := if "3" ∈ used then some inp.username_input else none
    if check_api_keys creds used then
      Except.ok (used,
        "Yes, using APIs with following IDs: " ++ String.intercalate ", " used,
        username)
    else Except.error CliOutcome.noUsableCredential
  else if pyLower inp.api_flag = "n" then
    Except.ok (["Empty"], "No", none)
  else Except.error CliOutcome.badApiMode

/-- The per-category dork database file name (the literal dict at lines
344-349; the lookup is guarded by membership in the five categories). -/
def dorkDbName (cat : String) : String :=
  if cat = "basic" then "basic_dorking.db"
  else if cat = "iot" then "iot_dorking.db"
  else if cat = "files" then "files_dorking.db"
  else if cat = "admins" then "adminpanels_dorking.db"
  else "webstructure_dorking.db"

/-- The dorking-mark step (lines 342-356): a category mode reads the row
count of its backing table and builds the `Yes, <category> dorking (<n>
dorks)` mark; `custom` reads the `dorks` table of the named file and also
rewrites the flag to `custom+<name>.db`; otherwise the mark stays `No`.
Returns (mark, dorking flag passed on to `process_report`). -/
def cliDorking (inp : CliScanInputs) (st : DorkStore) : String × String :=
  if pyLower inp.dorking_flag ∈ ["basic", "iot", "files", "admins", "web"] then
    let db_name := dorkDbName (pyLower inp.dorking_flag)
    let row_count := get_columns_amount st ("dorking//" ++ db_name)
      (pyLower inp.dorking_flag ++ "_dorks")
    ("Yes, " ++ (pyReplaceChar (pyLower inp.dorking_flag) '_' ' ') ++ " dorking ("
        ++ toString row_count ++ " dorks)",
      inp.dorking_flag)
  else if pyLower inp.dorking_flag = "custom" then
    let row_count := get_columns_amount st
      ("dorking//" ++ inp.custom_db_name ++ ".db") "dorks"
    ("Yes, Custom table dorking (" ++ toString row_count ++ " dorks)",
      pyLower inp.dorking_flag ++ "+" ++ inp.custom_db_name ++ ".db")
  else ("No", inp.dorking_flag)

/-- The snapshotting-mark step (lines 360-372): returns (mark, from_date,
end_date); only Wayback mode `w` reads the two dates, every other mode
leaves them `N`. -/
def cliSnapshot (inp : CliScanInputs) : String × String × String :=
  if pyLower inp.snapshotting_flag = "s" then
    ("Yes, domain" ++ squote ++ "s main page snapshotting as a screenshot",
      "N", "N")
  else if pyLower inp.snapshotting_flag = "p" then
    ("Yes, domain" ++ squote ++ "s main page snapshotting as a .HTML file",
      "N", "N")
  else if pyLower inp.snapshotting_flag = "w" then
    ("Yes, domain" ++ squote ++ "s main page snapshotting using Wayback Machine",
      inp.from_date_input, inp.end_date_input)
  else ("No", "N", "N")

/-- The pagesearch mark (lines 332-337). -/
def cliPagesearchMark (inp : CliScanInputs) (keywords_list : Option (List String))
    (keywords_flag : Nat) : String :=
  if pyLower inp.pagesearch_flag = "n" then "No"
  else if pyLower inp.pagesearch_flag = "y" ∧ keywords_flag = 1 then
    "Yes, with " ++ pyStrList (keywords_list.getD []) ++ " keywords search"
  else "Yes, without keywords search"

/-- Shallow embedding of one pass through the CLI scan branch (`run`,
choice "1", `src/dpulse.py` lines 262-382), in source order: the `back`
escape, the empty-domain and regex gates, the reachability precheck, the
report-filetype gate, the keyword step, the API step, the
pagesearch-validity gate, the dorking gate and mark, the snapshotting
gate and mark, and finally the `process_report` hand-off. -/
def cliScan (inp : CliScanInputs) (creds : List ApiCredential)
    (st : DorkStore) : CliOutcome :=
  if pyLower inp.short_domain = "back" then CliOutcome.back
  else if inp.short_domain = "" then CliOutcome.emptyDomain
  else if ¬ matchesDomainPattern inp.short_domain then CliOutcome.badPattern
  else if ¬ inp.precheckOk then CliOutcome.unreachable
  else if ¬ (pyLower inp.report_filetype = "html" ∨
      pyLower inp.report_filetype = "xlsx") then CliOutcome.badFiletype
  else
    match cliKeywords inp with
    | Except.error _ => CliOutcome.emptyKeywords
    | Except.ok (keywords_list, keywords_flag) =>
      match cliApiStep inp creds with
      | Except.error o => o
      | Except.ok (used_api_flag, used_api_ui, username) =>
        if pyLower inp.pagesearch_flag = "y" ∨ pyLower inp.pagesearch_flag = "n" then
          let pagesearch_ui_mark := cliPagesearchMark inp keywords_list keywords_flag
          if ¬ (pyLower inp.dorking_flag ∈
              ["basic", "iot", "n", "admins", "files", "web", "custom"]) then
            CliOutcome.badDorking
          else
            let dm := cliDorking inp st
            if ¬ (pyLower inp.snapshotting_flag ∈ ["s", "p", "w", "n"]) then
              CliOutcome.badSnapshotting
            else
              let sm := cliSnapshot inp
              CliOutcome.scanned
                { report_filetype := inp.report_filetype
                  short_domain := inp.short_domain
                  url := "http://" ++ inp.short_domain ++ "/"
                  case_comment := inp.case_comment
                  keywords_list := keywords_list
                  keywords_flag := keywords_flag
                  dorking_flag := dm.2
                  used_api_flag := used_api_flag
                  pagesearch_flag := inp.pagesearch_flag
                  snapshotting_flag := inp.snapshotting_flag
                  username := username
                  from_date := sm.2.1
                  end_date := sm.2.2 }
                { pagesearch := pagesearch_ui_mark
                  dorking := dm.1
                  api := used_api_ui
                  snapshotting := sm.1 }
        else CliOutcome.badPagesearch

/-- The invocation handed to `process_report`, when the pass completed. -/
def outcomeInvocation : CliOutcome → Option ScanInvocation
  | CliOutcome.scanned inv _ => some inv
  | _ => none

/-- The dorking summary mark, when the pass completed. -/
def outcomeDorkMark : CliOutcome → Option String
  | CliOutcome.scanned _ marks => some marks.dorking
  | _ => none

/-- The API id list handed to `process_report`, when the pass completed. -/
def outcomeUsedApi : CliOutcome → Option (List String)
  | CliOutcome.scanned inv _ => some inv.used_api_flag
  | _ => none

/-! ## Report recreation (`run`, choice "4"/"2", `src/dpulse.py` 476-486) -/

/-- A persisted report record: its id and its artifact files (relative
name, content). -/
structure ReportRecord where
  id : Nat
  artifacts : List (String × String)
deriving DecidableEq

/-- A fragment of filesystem state: the existing directories and the
files (path, content). -/
structure FsState where
  dirs : List String
  files : List (String × String)
deriving DecidableEq

/-- The destination directory name the CLI derives from the report id:
an f-string: `report_recreated_ID#` followed by the id. -/
def recreateFolder (idr : Nat) : String :=
  "report_recreated_ID#" ++ toString idr

/-- Modelled from the spec: `db_processing.db_report_recreate` is not
under `src/` (only its caller in `dpulse.py` is).  Per the spec, it reads
the artifact payloads of record `idr` and writes them into `folder` preserving
their original relative names, and fails when the id is unknown. -/
def db_report_recreate (store : List ReportRecord) (folder : String)
    (idr : Nat) (fs : FsState) : Except Unit FsState :=
  match store.find? fun r => r.id = idr with
  | none => Except.error ()
  | some r =>
      Except.ok { fs with
        files := fs.files ++ r.artifacts.map fun a => (folder ++ "/" ++ a.1, a.2) }

/-- Outcome of the CLI recreate step, carrying the resulting filesystem
state: success, the caught `FileExistsError` (destination already
present), or any other caught exception. -/
inductive RecreateOutcome where
  | done (fs : FsState)
  | conflict (fs : FsState)
  | otherError (fs : FsState)
deriving DecidableEq

/-- Shallow embedding of the CLI recreate step (lines 478-486):
`os.makedirs` raises `FileExistsError` when the destination directory
already exists — caught and reported without touching anything — and only
otherwise is the directory created and `db_report_recreate` run into it. -/
def cli_recreate (store : List ReportRecord) (idr : Nat) (fs : FsState) :
    RecreateOutcome :=
  if recreateFolder idr ∈ fs.dirs then RecreateOutcome.conflict fs
  else
    match db_report_recreate store (recreateFolder idr) idr
        { dirs := recreateFolder idr :: fs.dirs, files := fs.files } with
    | Except.ok fs2 => RecreateOutcome.done fs2
    | Except.error _ =>
        RecreateOutcome.otherError
          { dirs := recreateFolder idr :: fs.dirs, files := fs.files }

/-! ## API credential restore (`run`, choice "5"/"2", `src/dpulse.py` 449-460) -/

/-- The two credential files: the working copy `apis//api_keys.db` and the
reference copy `apis//api_keys_reference.db`; `none` means the file does
not exist. -/
structure ApiFsState where
  working : Option (List ApiCredential)
  reference : Option (List ApiCredential)
deriving DecidableEq

/-- The messages the restore step prints, in order. -/
inductive RestoreNote where
  | deletedOld
  | workingMissing
  | restored
  | referenceMissing
deriving DecidableEq

/-- Shallow embedding of the restore-defaults step (lines 450-460): first
`os.remove` deletes the working copy (a missing file is only reported),
then `shutil.copyfile` copies the reference copy over it (a missing
reference is only reported).  The deletion happens unconditionally before
the copy is attempted. -/
def cli_restore_defaults (s : ApiFsState) : ApiFsState × List RestoreNote :=
  let n1 := match s.working with
    | some _ => [RestoreNote.deletedOld]
    | none => [RestoreNote.workingMissing]
  let s1 : ApiFsState := { working := none, reference := s.reference }
  match s1.reference with
  | some ref =>
      ({ working := some ref, reference := s.reference },
        n1 ++ [RestoreNote.restored])
  | none => (s1, n1 ++ [RestoreNote.referenceMissing])

/-! ## Report store initialization (`src/dpulse.py` 59-64 and 464-471) -/

/-- Modelled from the spec: `db_processing.check_rsdb_presence` is not
under `src/` (only its caller is); it reports whether the report storage
database exists. -/
def check_rsdb_presence (s : Option (List ReportRecord)) : Bool :=
  s.isSome

/-- Modelled from the spec: `db_processing.db_creation` is not under
`src/` (only its caller is); it creates a fresh, empty report storage
database. -/
def db_creation : List ReportRecord := []

/-- The startup sequence around the report store (identical at lines 59-64
and 464-471): check presence, create the store only when absent. -/
def init_report_store (s : Option (List ReportRecord)) :
    Option (List ReportRecord) :=
  if check_rsdb_presence s then s else some db_creation

/-! ## Claims about store initialization, restore and recreation -/

/-- C8: report store initialization is idempotent — the startup sequence
(check presence, create only when absent) run twice equals it run once,
and when the store already exists a run leaves the existing data
unchanged. -/
theorem C8_store_init_idempotent :
    (∀ s, init_report_store (init_report_store s) = init_report_store s)
    ∧ (∀ st, init_report_store (some st) = some st) := by
  constructor
  · intro s
    cases s <;> rfl
  · intro st
    rfl

/-- C4 counterexample: with a present working credential set and a missing
reference set, the restore step reports the reference as missing (the
failure case of the claim) yet the working credential set has been
destroyed — it was deleted before the copy was attempted, refuting "the
working credential set is not destroyed by a failed restore". -/
theorem C4_counterexample :
    RestoreNote.referenceMissing ∈
      (cli_restore_defaults
        { working := some [{ id := "1", api_key := "KEY" }], reference := none }).2
    ∧ (cli_restore_defaults
        { working := some [{ id := "1", api_key := "KEY" }], reference := none }).1.working
      = none := by
  decide

/-- C4 (amended): the restore step deletes the working credential set
first and only then copies the reference set over it; when a reference
set exists the working set becomes a copy of it, and when no reference
set exists the step reports the reference as missing but the working set
has already been deleted — a failed restore leaves no working set.  The
reference set itself is never modified. -/
theorem C4_restore_defaults (s : ApiFsState) :
    ((cli_restore_defaults s).1.reference = s.reference)
    ∧ (∀ r, s.reference = some r →
        (cli_restore_defaults s).1.working = some r
          ∧ RestoreNote.restored ∈ (cli_restore_defaults s).2)
    ∧ (s.reference = none →
        (cli_restore_defaults s).1.working = none
          ∧ RestoreNote.referenceMissing ∈ (cli_restore_defaults s).2) := by
  rcases s with ⟨w, r⟩
  cases r <;> cases w <;> simp [cli_restore_defaults]

/-- C4 witness: restoring with a present reference set overwrites the
working set with it. -/
theorem C4_restore_defaults_witness :
    (cli_restore_defaults
      { working := some [], reference := some [{ id := "1", api_key := "K" }] }).1.working
      = some [{ id := "1", api_key := "K" }]
    ∧ RestoreNote.restored ∈
      (cli_restore_defaults
        { working := some [], reference := some [{ id := "1", api_key := "K" }] }).2 :=
  (C4_restore_defaults _).2.1 _ rfl

/-- C3: when the destination directory already exists, the recreate step
fails with the conflict (`FileExistsError`) outcome and the filesystem
state — in particular the contents of the existing directory — is returned
untouched; consequently running recreate twice with the same report id
(hence the same derived destination) fails the second time and preserves
the output of the first run. -/
theorem C3_recreate_conflict :
    (∀ (store : List ReportRecord) (idr : Nat) (fs : FsState),
        recreateFolder idr ∈ fs.dirs →
        cli_recreate store idr fs = RecreateOutcome.conflict fs)
    ∧ (∀ (store : List ReportRecord) (idr : Nat) (fs fs1 : FsState),
        cli_recreate store idr fs = RecreateOutcome.done fs1 →
        cli_recreate store idr fs1 = RecreateOutcome.conflict fs1) := by
  constructor
  · intro store idr fs h
    unfold cli_recreate
    rw [if_pos h]
  · intro store idr fs fs1 h
    unfold cli_recreate at h ⊢
    by_cases hd : recreateFolder idr ∈ fs.dirs
    · rw [if_pos hd] at h
      cases h
    · rw [if_neg hd] at h
      split at h
      next fs2 hrec =>
        cases h
        have hdirs : fs1.dirs = recreateFolder idr :: fs.dirs := by
          unfold db_report_recreate at hrec
          split at hrec
          · cases hrec
          · cases hrec
            rfl
        rw [if_pos (by rw [hdirs]; exact List.mem_cons_self _ _)]
      next e hrec =>
        cases h

/-- C3 witness: with one stored report, recreating into an existing
destination conflicts and leaves the state unchanged, and a second
recreate after a successful first one conflicts while preserving the
files of the first run. -/
theorem C3_recreate_conflict_witness :
    cli_recreate [{ id := 1, artifacts := [("report.html", "data")] }] 1
        { dirs := ["report_recreated_ID#1"], files := [] }
      = RecreateOutcome.conflict { dirs := ["report_recreated_ID#1"], files := [] }
    ∧ cli_recreate [{ id := 1, artifacts := [("report.html", "data")] }] 1
        { dirs := ["report_recreated_ID#1"],
          files := [("report_recreated_ID#1/report.html", "data")] }
      = RecreateOutcome.conflict
        { dirs := ["report_recreated_ID#1"],
          files := [("report_recreated_ID#1/report.html", "data")] } :=
  ⟨C3_recreate_conflict.1 _ 1 _ (by decide),
   C3_recreate_conflict.2 _ 1 { dirs := [], files := [] } _ (by decide)⟩

/-! ## Claims about the headless scan -/

/-- On the non-aborting path, the pipeline is invoked with exactly the
normalized argument tuple. -/
theorem run_headless_scan_snd (a : HeadlessArgs) (env : HeadlessEnv)
    (hne : a.short_domain ≠ "") (hdot : pyContains a.short_domain '.' = true)
    (hpc : headlessPrecheckAborts a env = false) :
    (run_headless_scan a env).2 = some (headlessInvocation a) := by
  unfold run_headless_scan
  rw [if_neg (by simp [hne, hdot]), if_neg (by simp [hpc])]
  split <;> rfl

/-- A concrete environment whose precheck helper reports the domain as
unreachable. -/
def downEnv : HeadlessEnv :=
  { precheckAvailable := true
    precheckResult := fun _ => Except.ok false
    scanResult := fun _ => Except.ok ()
    reportFiles := fun _ => [] }

/-- A concrete environment where the precheck passes and the pipeline
succeeds without producing report files. -/
def okEnv : HeadlessEnv :=
  { precheckAvailable := true
    precheckResult := fun _ => Except.ok true
    scanResult := fun _ => Except.ok ()
    reportFiles := fun _ => [] }

/-- A concrete environment where the precheck passes and the pipeline
raises an exception. -/
def raisingEnv : HeadlessEnv :=
  { precheckAvailable := true
    precheckResult := fun _ => Except.ok true
    scanResult := fun _ => Except.error { msg := "boom", tb := "Traceback: boom" }
    reportFiles := fun _ => [] }

/-- C1: when the reachability precheck fails, the scan fails with the
target-unreachable outcome and performs no further work.  Headless path:
the result is exactly the unreachable error dict with an empty report-file
list and the pipeline (dork lookup, API calls, page search, snapshotting,
report write) is never invoked.  CLI path: the pass ends at the
`unreachable` outcome — which carries no invocation — for every credential
store and dork store, so no store is consulted. -/
theorem C1_target_unreachable :
    (∀ (a : HeadlessArgs) (env : HeadlessEnv),
        a.short_domain ≠ "" →
        pyContains a.short_domain '.' = true →
        env.precheckAvailable = true →
        env.precheckResult a.short_domain = Except.ok false →
        run_headless_scan a env =
          ([("success", PyVal.bool false),
            ("message", PyVal.str "Domain precheck failed (not reachable)"),
            ("report_files", PyVal.strList [])], none))
    ∧ (∀ (inp : CliScanInputs) (creds : List ApiCredential) (st : DorkStore),
        pyLower inp.short_domain ≠ "back" →
        inp.short_domain ≠ "" →
        matchesDomainPattern inp.short_domain = true →
        inp.precheckOk = false →
        cliScan inp creds st = CliOutcome.unreachable) := by
  constructor
  · intro a env hne hdot hav hres
    unfold run_headless_scan
    rw [if_neg (by simp [hne, hdot]),
      if_pos (by unfold headlessPrecheckAborts; rw [hav, hres]; rfl)]
  · intro inp creds st h1 h2 h3 h4
    unfold cliScan
    rw [if_neg h1, if_neg h2, if_neg (by simp [h3]), if_pos (by simp [h4])]

/-- C1 witness: a well-formed domain whose precheck reports unreachable
aborts both paths with no pipeline invocation. -/
theorem C1_target_unreachable_witness :
    run_headless_scan
      { short_domain := "example.com", report_filetype := "html"
        pagesearch_flag := "n", keywords_list := none, dorking_flag := "n"
        used_api_flag := none, snapshotting_flag := "n", username := none
        from_date := none, end_date := none } downEnv =
      ([("success", PyVal.bool false),
        ("message", PyVal.str "Domain precheck failed (not reachable)"),
        ("report_files", PyVal.strList [])], none)
    ∧ cliScan
      { short_domain := "example.com", precheckOk := false, case_comment := ""
        report_filetype := "html", pagesearch_flag := "n", keywords_input := ""
        dorking_flag := "n", api_flag := "n", to_use_api_flag := ""
        username_input := "", snapshotting_flag := "n", from_date_input := ""
        end_date_input := "", custom_db_name := "" } [] ⟨fun _ _ => []⟩ =
      CliOutcome.unreachable :=
  ⟨C1_target_unreachable.1 _ downEnv (by decide) (by decide) rfl rfl,
   C1_target_unreachable.2 _ [] ⟨fun _ _ => []⟩ (by decide) (by decide) (by decide) rfl⟩

/-- C5 counterexample arguments: an archive-range (`w`) request whose
start date 20240102 is greater than its end date 20240101. -/
def c5args : HeadlessArgs :=
  { short_domain := "example.com", report_filetype := "html"
    pagesearch_flag := "n", keywords_list := none, dorking_flag := "n"
    used_api_flag := none, snapshotting_flag := "w", username := none
    from_date := some "20240102", end_date := some "20240101" }

/-- C5 counterexample: the archive-range request with start date greater
than end date is not rejected with an invalid-request failure — the scan
pipeline is invoked with exactly these dates and the call reports
success, so the malformed range reaches the archive lookup. -/
theorem C5_counterexample :
    (run_headless_scan c5args okEnv).2.map (fun i => (i.from_date, i.end_date))
        = some ("20240102", "20240101")
    ∧ dictGet (run_headless_scan c5args okEnv).1 "success" = some (PyVal.bool true) := by
  decide

/-- C5 (amended): the headless scan validates only the domain shape
(non-empty, containing a dot) before any further work and fails fast on
that; the archive date range is never validated — whatever the ordering
of the start and end dates, they are passed through unchanged to the scan
pipeline and hence to the archive lookup. -/
theorem C5_domain_only_validation (a : HeadlessArgs) (env : HeadlessEnv) :
    ((a.short_domain = "" ∨ pyContains a.short_domain '.' = false) →
      run_headless_scan a env =
        ([("success", PyVal.bool false),
          ("message", PyVal.str "Invalid domain provided"),
          ("report_files", PyVal.strList [])], none))
    ∧ (a.short_domain ≠ "" → pyContains a.short_domain '.' = true →
        headlessPrecheckAborts a env = false →
        (run_headless_scan a env).2.map (fun i => (i.from_date, i.end_date))
          = some (a.from_date.getD "N", a.end_date.getD "N")) := by
  constructor
  · intro h
    unfold run_headless_scan
    rw [if_pos h]
  · intro hne hdot hpc
    rw [run_headless_scan_snd a env hne hdot hpc]
    rfl

/-- C5 amended-theorem witness: the start-greater-than-end dates pass
through unchanged. -/
theorem C5_domain_only_validation_witness :
    (run_headless_scan c5args okEnv).2.map (fun i => (i.from_date, i.end_date))
      = some ("20240102", "20240101") :=
  ((C5_domain_only_validation c5args okEnv).2 (by decide) (by decide) rfl).trans
    (by decide)

/-- C9: `run_headless_scan` is total at its interface — for every input
the returned dict has the keys `success`, `message` and `report_files`
(the embedding returns a dict in every branch, so nothing escapes) — and
whenever the scan pipeline raises, the returned dict has `success` false
and carries a `trace` key with the traceback of the exception. -/
theorem C9_headless_totality (a : HeadlessArgs) (env : HeadlessEnv) :
    ((dictGet (run_headless_scan a env).1 "success").isSome
      ∧ (dictGet (run_headless_scan a env).1 "message").isSome
      ∧ (dictGet (run_headless_scan a env).1 "report_files").isSome)
    ∧ (∀ inv e, (run_headless_scan a env).2 = some inv →
        env.scanResult inv = Except.error e →
        dictGet (run_headless_scan a env).1 "success" = some (PyVal.bool false)
          ∧ dictGet (run_headless_scan a env).1 "trace" = some (PyVal.str e.tb)) := by
  unfold run_headless_scan
  by_cases h1 : a.short_domain = "" ∨ pyContains a.short_domain '.' = false
  · rw [if_pos h1]
    exact ⟨⟨rfl, rfl, rfl⟩, by rintro inv e h; cases h⟩
  · rw [if_neg h1]
    by_cases h2 : headlessPrecheckAborts a env = true
    · rw [if_pos h2]
      exact ⟨⟨rfl, rfl, rfl⟩, by rintro inv e h; cases h⟩
    · rw [if_neg h2]
      cases hsc : env.scanResult (headlessInvocation a) with
      | error e0 =>
          refine ⟨⟨rfl, rfl, rfl⟩, ?_⟩
          rintro inv e h hres
          cases h
          rw [hsc] at hres
          cases hres
          exact ⟨rfl, rfl⟩
      | ok u =>
          refine ⟨⟨rfl, rfl, rfl⟩, ?_⟩
          rintro inv e h hres
          cases h
          rw [hsc] at hres
          cases hres

/-- C9 witness: a raising pipeline yields a false `success` and a `trace`
key with the traceback. -/
theorem C9_headless_totality_witness :
    dictGet (run_headless_scan c5args raisingEnv).1 "success"
        = some (PyVal.bool false)
    ∧ dictGet (run_headless_scan c5args raisingEnv).1 "trace"
        = some (PyVal.str "Traceback: boom") :=
  (C9_headless_totality c5args raisingEnv).2 (headlessInvocation c5args)
    { msg := "boom", tb := "Traceback: boom" } (by decide) rfl

/-- C10: on the non-aborting path the headless scan invokes the pipeline
with the normalized arguments: falsy `used_api_flag` becomes `["Empty"]`
(a non-empty list is kept), `None` dates become `"N"`, `keywords_flag` is
1 exactly for a non-empty keyword list, the downstream url is
`http://<short_domain>/` and the case comment is empty. -/
theorem C10_normalization (a : HeadlessArgs) (env : HeadlessEnv)
    (hne : a.short_domain ≠ "") (hdot : pyContains a.short_domain '.' = true)
    (hpc : headlessPrecheckAborts a env = false) :
    (run_headless_scan a env).2 = some (headlessInvocation a)
    ∧ (a.used_api_flag = none ∨ a.used_api_flag = some [] →
        (headlessInvocation a).used_api_flag = ["Empty"])
    ∧ (∀ x xs, a.used_api_flag = some (x :: xs) →
        (headlessInvocation a).used_api_flag = x :: xs)
    ∧ (headlessInvocation a).from_date = a.from_date.getD "N"
    ∧ (headlessInvocation a).end_date = a.end_date.getD "N"
    ∧ ((headlessInvocation a).keywords_flag = 1 ↔
        ∃ k ks, a.keywords_list = some (k :: ks))
    ∧ (headlessInvocation a).url = "http://" ++ a.short_domain ++ "/"
    ∧ (headlessInvocation a).case_comment = "" := by
  refine ⟨run_headless_scan_snd a env hne hdot hpc, ?_, ?_, rfl, rfl, ?_, rfl, rfl⟩
  · rintro (h | h) <;> simp [headlessInvocation, h]
  · intro x xs h
    simp [headlessInvocation, h]
  · rcases hk : a.keywords_list with _ | ⟨_ | ⟨k, ks⟩⟩ <;>
      simp [headlessInvocation, hk]

/-- C10 witness: concrete normalization — empty api selection, missing
dates, and a one-element keyword list. -/
theorem C10_normalization_witness :
    (run_headless_scan
      { short_domain := "example.com", report_filetype := "html"
        pagesearch_flag := "y", keywords_list := some ["pass"]
        dorking_flag := "n", used_api_flag := none, snapshotting_flag := "n"
        username := none, from_date := none, end_date := none } okEnv).2
      = some (headlessInvocation
        { short_domain := "example.com", report_filetype := "html"
          pagesearch_flag := "y", keywords_list := some ["pass"]
          dorking_flag := "n", used_api_flag := none, snapshotting_flag := "n"
          username := none, from_date := none, end_date := none })
    ∧ (headlessInvocation
        { short_domain := "example.com", report_filetype := "html"
          pagesearch_flag := "y", keywords_list := some ["pass"]
          dorking_flag := "n", used_api_flag := none, snapshotting_flag := "n"
          username := none, from_date := none, end_date := none }).used_api_flag
      = ["Empty"] := by
  have h := C10_normalization
    { short_domain := "example.com", report_filetype := "html"
      pagesearch_flag := "y", keywords_list := some ["pass"]
      dorking_flag := "n", used_api_flag := none, snapshotting_flag := "n"
      username := none, from_date := none, end_date := none } okEnv
    (by decide) (by decide) rfl
  exact ⟨h.1, h.2.1 (Or.inl rfl)⟩

/-! ## Claims about the CLI scan pass -/

/-- A dork store with no rows anywhere. -/
def emptyDorkStore : DorkStore := ⟨fun _ _ => []⟩

/-- Baseline CLI inputs: reachable well-formed domain, html report, and
every optional source switched off. -/
def baseInp : CliScanInputs :=
  { short_domain := "example.com", precheckOk := true, case_comment := ""
    report_filetype := "html", pagesearch_flag := "n", keywords_input := ""
    dorking_flag := "n", api_flag := "n", to_use_api_flag := ""
    username_input := "", snapshotting_flag := "n", from_date_input := ""
    end_date_input := "", custom_db_name := "" }

/-- C2: with the API mode selected, if no requested identifier resolves to
a valid (known, non-empty-key) credential then the pass aborts with the
no-usable-credential outcome — which carries no invocation, so no API
source is activated — and if at least one requested identifier is valid
the pass proceeds and hands exactly the requested identifier list to the
pipeline. -/
theorem C2_no_usable_credential
    (inp : CliScanInputs) (creds : List ApiCredential) (st : DorkStore)
    (h1 : pyLower inp.short_domain ≠ "back")
    (h2 : inp.short_domain ≠ "")
    (h3 : matchesDomainPattern inp.short_domain = true)
    (h4 : inp.precheckOk = true)
    (h5 : pyLower inp.report_filetype = "html" ∨ pyLower inp.report_filetype = "xlsx")
    (hp : pyLower inp.pagesearch_flag = "n")
    (hay : pyLower inp.api_flag = "y") :
    (check_api_keys creds (parseApiIds inp.to_use_api_flag) = false →
        cliScan inp creds st = CliOutcome.noUsableCredential)
    ∧ (check_api_keys creds (parseApiIds inp.to_use_api_flag) = true →
        pyLower inp.dorking_flag = "n" →
        pyLower inp.snapshotting_flag = "n" →
        outcomeUsedApi (cliScan inp creds st)
          = some (parseApiIds inp.to_use_api_flag)) := by
  constructor
  · intro hbad
    rcases h5 with h5 | h5 <;>
      simp [cliScan, cliKeywords, cliApiStep, h1, h2, h3, h4, h5, hp, hay, hbad]
  · intro hgood hd hsn
    rcases h5 with h5 | h5 <;>
      simp [cliScan, cliKeywords, cliApiStep, cliDorking, cliSnapshot,
        cliPagesearchMark, outcomeUsedApi, h1, h2, h3, h4, h5, hp, hay, hgood,
        hd, hsn]

/-- C2 witness: with credentials id 1 (empty key) and id 2 (non-empty
key), requesting only id 1 aborts with no usable credential, while
requesting id 2 proceeds and activates exactly `["2"]`. -/
theorem C2_no_usable_credential_witness :
    cliScan { baseInp with api_flag := "y", to_use_api_flag := "1" }
        [{ id := "1", api_key := "" }, { id := "2", api_key := "KEY" }]
        emptyDorkStore
      = CliOutcome.noUsableCredential
    ∧ outcomeUsedApi (cliScan { baseInp with api_flag := "y", to_use_api_flag := "2" }
        [{ id := "1", api_key := "" }, { id := "2", api_key := "KEY" }]
        emptyDorkStore)
      = some ["2"] := by
  constructor
  · exact (C2_no_usable_credential _ _ emptyDorkStore (by decide) (by decide)
      (by decide) rfl (Or.inl (by decide)) (by decide) (by decide)).1 (by decide)
  · exact ((C2_no_usable_credential _ _ emptyDorkStore (by decide) (by decide)
      (by decide) rfl (Or.inl (by decide)) (by decide) (by decide)).2 (by decide)
      (by decide) (by decide)).trans (by decide)

/-- Replacing underscores by spaces is the identity on the five category
names (they contain no underscore). -/
theorem pyReplaceChar_underscore_basic :
    pyReplaceChar "basic" '_' ' ' = "basic" := by decide

/-- Replacing underscores by spaces is the identity on "iot". -/
theorem pyReplaceChar_underscore_iot :
    pyReplaceChar "iot" '_' ' ' = "iot" := by decide

/-- Replacing underscores by spaces is the identity on "files". -/
theorem pyReplaceChar_underscore_files :
    pyReplaceChar "files" '_' ' ' = "files" := by decide

/-- Replacing underscores by spaces is the identity on "admins". -/
theorem pyReplaceChar_underscore_admins :
    pyReplaceChar "admins" '_' ' ' = "admins" := by decide

/-- Replacing underscores by spaces is the identity on "web". -/
theorem pyReplaceChar_underscore_web :
    pyReplaceChar "web" '_' ' ' = "web" := by decide

/-- C6: for every enabled category dorking mode, the dorking summary mark
is exactly `Yes, <category> dorking (<n> dorks)` where `<n>` is the row
count of the backing template table of that category in the dork store at
query time. -/
theorem C6_category_dorking_mark
    (inp : CliScanInputs) (creds : List ApiCredential) (st : DorkStore)
    (h1 : pyLower inp.short_domain ≠ "back")
    (h2 : inp.short_domain ≠ "")
    (h3 : matchesDomainPattern inp.short_domain = true)
    (h4 : inp.precheckOk = true)
    (h5 : pyLower inp.report_filetype = "html" ∨ pyLower inp.report_filetype = "xlsx")
    (hp : pyLower inp.pagesearch_flag = "n")
    (ha : pyLower inp.api_flag = "n")
    (hs : pyLower inp.snapshotting_flag = "n")
    (hcat : pyLower inp.dorking_flag ∈ ["basic", "iot", "files", "admins", "web"]) :
    outcomeDorkMark (cliScan inp creds st) =
      some ("Yes, " ++ pyLower inp.dorking_flag ++ " dorking ("
        ++ toString (st.tables ("dorking//" ++ dorkDbName (pyLower inp.dorking_flag))
              (pyLower inp.dorking_flag ++ "_dorks")).length ++ " dorks)") := by
  simp only [List.mem_cons, List.not_mem_nil, or_false] at hcat
  rcases h5 with h5 | h5 <;>
    rcases hcat with hd | hd | hd | hd | hd <;>
      simp [cliScan, cliKeywords, cliApiStep, cliDorking, cliSnapshot,
        cliPagesearchMark, outcomeDorkMark, dorkDbName, get_columns_amount,
        h1, h2, h3, h4, h5, hp, ha, hs, hd,
        pyReplaceChar_underscore_basic, pyReplaceChar_underscore_iot,
        pyReplaceChar_underscore_files, pyReplaceChar_underscore_admins,
        pyReplaceChar_underscore_web]

/-- C6 witness: an `iot` scan against a 3-row iot collection yields the
mark `Yes, iot dorking (3 dorks)`. -/
theorem C6_category_dorking_mark_witness :
    outcomeDorkMark (cliScan { baseInp with dorking_flag := "iot" } []
        ⟨fun f t => if f = "dorking//iot_dorking.db" ∧ t = "iot_dorks" then
          [⟨1, "d1"⟩, ⟨2, "d2"⟩, ⟨3, "d3"⟩] else []⟩)
      = some "Yes, iot dorking (3 dorks)" :=
  (C6_category_dorking_mark _ [] _ (by decide) (by decide) (by decide) rfl
      (Or.inl (by decide)) (by decide) (by decide) (by decide)
      (by decide)).trans (by decide)

/-- Rows gathered with the dorking mode disabled never carry the dork
origin: the dork component of the merged result is empty. -/
theorem data_gathering_dork_free (g : GatherEnv) (ps : String)
    (used : List String) (r : Row) (hr : r ∈ data_gathering g ps "n" used) :
    r.origin ≠ RowOrigin.dork := by
  unfold data_gathering at hr
  rcases List.mem_append.1 hr with h | h
  · rcases List.mem_append.1 h with h | h
    · by_cases hc : ps = "y" ∨ ps = "si"
      · rw [if_pos hc] at h
        rcases List.mem_map.1 h with ⟨x, _, rfl⟩
        simp
      · rw [if_neg hc] at h
        exact absurd h (List.not_mem_nil r)
    · rw [if_pos rfl] at h
      exact absurd h (List.not_mem_nil r)
  · by_cases hc : used = ["Empty"]
    · rw [if_pos hc] at h
      exact absurd h (List.not_mem_nil r)
    · rw [if_neg hc] at h
      rcases List.mem_map.1 h with ⟨x, _, rfl⟩
      simp

/-- C7: for a scan pass with dorking disabled (mode `n`), the dorking
summary mark is exactly `No`, and the merged scan result contains no
dork-origin rows — for every gather environment, pagesearch mode and API
selection, every row gathered under dorking mode `"n"` has a non-dork
origin. -/
theorem C7_dorking_disabled
    (inp : CliScanInputs) (creds : List ApiCredential) (st : DorkStore)
    (h1 : pyLower inp.short_domain ≠ "back")
    (h2 : inp.short_domain ≠ "")
    (h3 : matchesDomainPattern inp.short_domain = true)
    (h4 : inp.precheckOk = true)
    (h5 : pyLower inp.report_filetype = "html" ∨ pyLower inp.report_filetype = "xlsx")
    (hp : pyLower inp.pagesearch_flag = "n")
    (ha : pyLower inp.api_flag = "n")
    (hs : pyLower inp.snapshotting_flag = "n")
    (hd : pyLower inp.dorking_flag = "n") :
    outcomeDorkMark (cliScan inp creds st) = some "No"
    ∧ (∀ (g : GatherEnv) (ps : String) (used : List String),
        ∀ r ∈ data_gathering g ps "n" used, r.origin ≠ RowOrigin.dork) := by
  constructor
  · rcases h5 with h5 | h5 <;>
      simp [cliScan, cliKeywords, cliApiStep, cliDorking, cliSnapshot,
        cliPagesearchMark, outcomeDorkMark, h1, h2, h3, h4, h5, hp, ha, hs, hd]
  · intro g ps used r hr
    exact data_gathering_dork_free g ps used r hr

/-- C7 witness: the disabled-dorking baseline pass yields the mark `No`,
and a gather with page-search and API hits present but dorking `"n"`
yields only non-dork rows. -/
theorem C7_dorking_disabled_witness :
    outcomeDorkMark (cliScan baseInp [] emptyDorkStore) = some "No"
    ∧ (∀ r ∈ data_gathering ⟨["p"], ["d"], ["a"]⟩ "y" "n" ["1"],
        r.origin ≠ RowOrigin.dork) :=
  ⟨(C7_dorking_disabled baseInp [] emptyDorkStore (by decide) (by decide)
      (by decide) rfl (Or.inl (by decide)) (by decide) (by decide) (by decide)
      (by decide)).1,
   (C7_dorking_disabled baseInp [] emptyDorkStore (by decide) (by decide)
      (by decide) rfl (Or.inl (by decide)) (by decide) (by decide) (by decide)
      (by decide)).2 _ "y" ["1"]⟩

end DPulse
